import Mathlib

/-!
Verification of the `GraphqlClient` class of `isar_exr/api/graphql_client.py`.

The class is embedded shallowly as pure functions over an explicit state and an
environment oracle.  The environment models the external collaborators the
source delegates to: the token source (`get_access_token`), the schema file on
disk (`open` + `parse`), and the gql session's `execute`.  Every observable
action of the code (token fetches, schema-file reads, schema builds, transport
and client construction, connects, execute attempts, log calls, assignments to
the `_reauthenticated` flag) is recorded in an event trace so that counting and
ordering properties can be stated.
-/

namespace GraphqlClient

/-- Variable/response dictionaries (`dict[str, Any]` in the source). -/
abbrev Params := List (String × Nat)

/-- Response mapping returned by `session.execute`. -/
abbrev Response := List (String × Nat)

/-- The failure taxonomy visible to `GraphqlClient.query`: the exception
classes it catches, in the source's import list.  `transportServerError`
carries `e.code` (`Optional[int]` in gql, hence `Option Nat`);
`otherException` is any exception not in the explicit list (the
`except Exception` arm), including whatever `get_access_token` raises. -/
inductive Err where
  | graphQLError (message : String)
  | transportProtocolError (message : String)
  | transportQueryError (errors : List String)
  | transportClosed
  | transportServerError (code : Option Nat) (message : String)
  | transportAlreadyConnected (message : String)
  | readTimeout (message : String)
  | connectTimeout (message : String)
  | otherException (message : String)
  deriving DecidableEq

/-- Rendering of an exception as in a Python f-string interpolation. -/
def Err.render : Err → String
  | Err.graphQLError m => m
  | Err.transportProtocolError m => m
  | Err.transportQueryError errs => String.intercalate ", " errs
  | Err.transportClosed => "transport closed"
  | Err.transportServerError _ m => m
  | Err.transportAlreadyConnected m => m
  | Err.readTimeout m => m
  | Err.connectTimeout m => m
  | Err.otherException m => m

/-- Observable actions of the client, recorded in order. -/
inductive Event where
  | tokenFetch (idx : Nat) (ok : Bool)
  | logCritical (msg : String)
  | logError (msg : String)
  | schemaFileRead
  | buildSchema (doc : Nat)
  | newTransport (headers : List (String × String))
  | newClient (id : Nat)
  | connect (client : Nat) (session : Nat)
  | executeAttempt (session : Nat) (q : Nat) (params : Params)
  | flagSet (value : Bool)
  deriving DecidableEq

/-- The mutable attributes of a `GraphqlClient` object.  `document`,
`schema`, `client` and `session` hold identifiers of the Python objects bound
to `self.document`, `self.schema`, `self.client`, `self.session`.
`tokenFetches` counts calls to `get_access_token` so the oracle can answer
each call independently; `nextId` is a fresh-identifier counter standing for
object allocation. -/
structure State where
  reauthenticated : Bool
  document : Nat
  schema : Nat
  client : Nat
  session : Nat
  tokenFetches : Nat
  nextId : Nat
  deriving DecidableEq

/-- Oracle for the external collaborators: the result of the n-th
`get_access_token` call, the result of reading and parsing the schema file
(a parsed-document identifier on success), and the result of
`session.execute` for a given session object, query document and variable
values. -/
structure Env where
  tokenResult : Nat → Except Err String
  schemaParse : Except Err Nat
  execResult : Nat → Nat → Params → Except Err Response

/-- Model of `GraphqlClient._get_updated_auth_header`: fetch a token; on failure log
critical and re-raise; on success return the `authorization` header. -/
def _get_updated_auth_header (env : Env) (st : State) :
    Except Err (List (String × String)) × State × List Event :=
  match env.tokenResult st.tokenFetches with
  | Except.error e =>
      (Except.error e, { st with tokenFetches := st.tokenFetches + 1 },
       [Event.tokenFetch st.tokenFetches false,
        Event.logCritical ("CRITICAL - Error getting access token: \n" ++ Err.render e)])
  | Except.ok token =>
      (Except.ok [("authorization", "Bearer " ++ token)],
       { st with tokenFetches := st.tokenFetches + 1 },
       [Event.tokenFetch st.tokenFetches true])

/-- Model of `GraphqlClient._refresh_session`: fresh auth header, new transport, a
`GraphQLSchema` rebuilt from the stored `self.document` (no file read), new
client, connect.  Only `self.client` and `self.session` are reassigned. -/
def _refresh_session (env : Env) (st : State) :
    Except Err Unit × State × List Event :=
  match _get_updated_auth_header env st with
  | (Except.error e, st1, tr) => (Except.error e, st1, tr)
  | (Except.ok auth_header, st1, tr) =>
      (Except.ok (),
       { st1 with client := st1.nextId, session := st1.nextId + 1,
                  nextId := st1.nextId + 2 },
       tr ++ [Event.newTransport auth_header,
              Event.buildSchema st1.document,
              Event.newClient st1.nextId,
              Event.connect st1.nextId (st1.nextId + 1)])

/-- Model of `GraphqlClient._initialize_session`: fresh auth header, read and parse the
schema file into `self.document`, build the schema, new transport, new client,
`DSLSchema` into `self.schema`, connect. -/
def _initialize_session (env : Env) (st : State) :
    Except Err Unit × State × List Event :=
  match _get_updated_auth_header env st with
  | (Except.error e, st1, tr) => (Except.error e, st1, tr)
  | (Except.ok auth_header, st1, tr) =>
      match env.schemaParse with
      | Except.error e => (Except.error e, st1, tr ++ [Event.schemaFileRead])
      | Except.ok doc =>
          (Except.ok (),
           { st1 with document := doc, client := st1.nextId,
                      schema := st1.nextId + 1, session := st1.nextId + 2,
                      nextId := st1.nextId + 3 },
           tr ++ [Event.schemaFileRead, Event.buildSchema doc,
                  Event.newTransport auth_header,
                  Event.newClient st1.nextId,
                  Event.connect st1.nextId (st1.nextId + 2)])

/-- Model of `GraphqlClient.__init__`: set `_reauthenticated = False`, then
`_initialize_session`. -/
def init (env : Env) : Except Err State × List Event :=
  let st0 : State :=
    { reauthenticated := false, document := 0, schema := 0, client := 0,
      session := 0, tokenFetches := 0, nextId := 1 }
  match _initialize_session env st0 with
  | (Except.error e, _, tr) => (Except.error e, Event.flagSet false :: tr)
  | (Except.ok _, st1, tr) => (Except.ok st1, Event.flagSet false :: tr)

/-- Model of `GraphqlClient.query`: execute against the current session; classify a
failure by exception class exactly as the chain of `except` clauses does; on
`TransportProtocolError`, and on `TransportServerError` with `e.code == 302`,
when `_reauthenticated` is still false, refresh the session, set the flag and
recurse once; every other failure is logged and re-raised; the `finally`
clause resets `_reauthenticated = False` on every exit. -/
def query (env : Env) (st : State) (q : Nat) (p : Params) :
    Except Err Response × State × List Event :=
  let att := Event.executeAttempt st.session q p
  let inner : Except Err Response × State × List Event :=
    match env.execResult st.session q p with
    | Except.ok response => (Except.ok response, st, [att])
    | Except.error (Err.graphQLError m) =>
        (Except.error (Err.graphQLError m), st,
         [att, Event.logError
            ("Something went wrong while sending the GraphQL query: " ++ m)])
    | Except.error (Err.transportProtocolError m) =>
        if st.reauthenticated then
          (Except.error (Err.transportProtocolError m), st,
           [att, Event.logError
              "Transport protocol error - Error in configuration of GraphQL client even after reauthentication"])
        else
          match _refresh_session env st with
          | (Except.error re, st1, rtr) => (Except.error re, st1, att :: rtr)
          | (Except.ok _, st1, rtr) =>
              let sub := query env { st1 with reauthenticated := true } q p
              (sub.1, sub.2.1,
               att :: rtr ++ [Event.flagSet true] ++ sub.2.2)
    | Except.error (Err.transportQueryError errs) =>
        (Except.error (Err.transportQueryError errs), st,
         [att, Event.logError
            ("The Energy Robotics server returned an error: " ++
              String.intercalate ", " errs)])
    | Except.error Err.transportClosed =>
        (Except.error Err.transportClosed, st,
         [att, Event.logError "The connection to the GraphQL endpoint is closed"])
    | Except.error (Err.transportServerError code m) =>
        if code = some 302 then
          if st.reauthenticated then
            (Except.error (Err.transportServerError code m), st,
             [att, Event.logError
                "Transport server error - Error in Energy Robotics server even after reauthentication"])
          else
            match _refresh_session env st with
            | (Except.error re, st1, rtr) => (Except.error re, st1, att :: rtr)
            | (Except.ok _, st1, rtr) =>
                let sub := query env { st1 with reauthenticated := true } q p
                (sub.1, sub.2.1,
                 att :: rtr ++ [Event.flagSet true] ++ sub.2.2)
        else
          (Except.error (Err.transportServerError code m), st,
           [att, Event.logError ("Error in Energy Robotics server: " ++ m)])
    | Except.error (Err.transportAlreadyConnected m) =>
        (Except.error (Err.transportAlreadyConnected m), st,
         [att, Event.logError ("The transport is already connected: " ++ m)])
    | Except.error (Err.readTimeout m) =>
        (Except.error (Err.readTimeout m), st,
         [att, Event.logError ("Request to GraphQL API timed out: " ++ m)])
    | Except.error (Err.connectTimeout m) =>
        (Except.error (Err.connectTimeout m), st,
         [att, Event.logError ("Connection to GraphQL API timed out: " ++ m)])
    | Except.error (Err.otherException m) =>
        (Except.error (Err.otherException m), st,
         [att, Event.logError ("Unknown error in GraphQL client: " ++ m)])
  (inner.1, { inner.2.1 with reauthenticated := false },
   inner.2.2 ++ [Event.flagSet false])
termination_by (if st.reauthenticated then 1 else 2)
decreasing_by
  all_goals simp_all

/-- The error kinds whose first-attempt failure triggers the one-shot
reauthentication retry: `TransportProtocolError`, and `TransportServerError`
with `e.code == 302`. -/
def isReauthTrigger : Err → Bool
  | Err.transportProtocolError _ => true
  | Err.transportServerError code _ => if code = some 302 then true else false
  | _ => false

/-- The error kinds that are logged and re-raised without any retry. -/
def isNonRetryError : Err → Bool
  | Err.transportProtocolError _ => false
  | Err.transportServerError code _ => if code = some 302 then false else true
  | _ => true

/-- The log message emitted for error `e` when it is not retried (for the
retryable kinds this is the message of the flag-already-true arm). -/
def errorLogMsg : Err → String
  | Err.graphQLError m =>
      "Something went wrong while sending the GraphQL query: " ++ m
  | Err.transportProtocolError _ =>
      "Transport protocol error - Error in configuration of GraphQL client even after reauthentication"
  | Err.transportQueryError errs =>
      "The Energy Robotics server returned an error: " ++
        String.intercalate ", " errs
  | Err.transportClosed => "The connection to the GraphQL endpoint is closed"
  | Err.transportServerError code m =>
      if code = some 302 then
        "Transport server error - Error in Energy Robotics server even after reauthentication"
      else
        "Error in Energy Robotics server: " ++ m
  | Err.transportAlreadyConnected m => "The transport is already connected: " ++ m
  | Err.readTimeout m => "Request to GraphQL API timed out: " ++ m
  | Err.connectTimeout m => "Connection to GraphQL API timed out: " ++ m
  | Err.otherException m => "Unknown error in GraphQL client: " ++ m

/-- The log event emitted for a non-retried error `e`. -/
def errorLog (e : Err) : Event := Event.logError (errorLogMsg e)

def isExecAttempt : Event → Bool
  | Event.executeAttempt _ _ _ => true
  | _ => false

def isConnectEv : Event → Bool
  | Event.connect _ _ => true
  | _ => false

def isFileRead : Event → Bool
  | Event.schemaFileRead => true
  | _ => false

def isTokenFetchEv : Event → Bool
  | Event.tokenFetch _ _ => true
  | _ => false

def isLogErrorEv : Event → Bool
  | Event.logError _ => true
  | _ => false

def isLogCriticalEv : Event → Bool
  | Event.logCritical _ => true
  | _ => false

def isFlagSetTrue : Event → Bool
  | Event.flagSet true => true
  | _ => false

/-- Number of events satisfying `p` in a trace. -/
def countEv (p : Event → Bool) (tr : List Event) : Nat := (tr.filter p).length

/-- Arguments of the execute attempts of a trace, in order. -/
def execAttemptArgs (tr : List Event) : List (Nat × Nat × Params) :=
  tr.filterMap fun ev =>
    match ev with
    | Event.executeAttempt s q p => some (s, q, p)
    | _ => none

/-- Predicate `occursBefore p q tr` holds when some `p`-event occurs strictly before the
first `q`-event of `tr` (and a `q`-event does occur after it). -/
def occursBefore (p q : Event → Bool) : List Event → Bool
  | [] => false
  | ev :: tl => if q ev then false
      else if p ev then tl.any q else occursBefore p q tl

/-- A client state as after a successful initialization: flag down, one token
fetch consumed, current session object `0`. -/
def stStart : State :=
  { reauthenticated := false, document := 7, schema := 2, client := 3,
    session := 0, tokenFetches := 1, nextId := 4 }

/-- Environment where every execute attempt raises `TransportProtocolError`
and tokens are always granted. -/
def envProto : Env :=
  { tokenResult := fun _ => Except.ok "tokA",
    schemaParse := Except.ok 7,
    execResult := fun _ _ _ => Except.error (Err.transportProtocolError "bad") }

/-- Environment where the initial session (object `0`) raises
`TransportProtocolError` and any rebuilt session succeeds. -/
def envRecover : Env :=
  { tokenResult := fun _ => Except.ok "tokB",
    schemaParse := Except.ok 7,
    execResult := fun s _ _ =>
      if s = 0 then Except.error (Err.transportProtocolError "expired")
      else Except.ok [("data", 1)] }

/-- Environment where every execute attempt succeeds. -/
def envOk : Env :=
  { tokenResult := fun _ => Except.ok "tokC",
    schemaParse := Except.ok 7,
    execResult := fun _ _ _ => Except.ok [("result", 2)] }

/-- Environment where every execute attempt raises `TransportServerError`
with code 500. -/
def envServer500 : Env :=
  { tokenResult := fun _ => Except.ok "tokD",
    schemaParse := Except.ok 7,
    execResult := fun _ _ _ =>
      Except.error (Err.transportServerError (some 500) "oops") }

/-- Environment where token acquisition always fails and the initial session
raises `TransportProtocolError`. -/
def envTokenFail : Env :=
  { tokenResult := fun _ => Except.error (Err.otherException "denied"),
    schemaParse := Except.ok 7,
    execResult := fun _ _ _ => Except.error (Err.transportProtocolError "bad") }

@[simp] theorem countEv_nil (p : Event → Bool) : countEv p [] = 0 := rfl

theorem countEv_cons (p : Event → Bool) (ev : Event) (tr : List Event) :
    countEv p (ev :: tr) = (if p ev then 1 else 0) + countEv p tr := by
  simp [countEv, List.filter_cons]
  split <;> simp [Nat.add_comm]

theorem countEv_append (p : Event → Bool) (t1 t2 : List Event) :
    countEv p (t1 ++ t2) = countEv p t1 + countEv p t2 := by
  simp [countEv, List.filter_append]

theorem auth_header_err (env : Env) (st : State) (e : Err)
    (h : env.tokenResult st.tokenFetches = Except.error e) :
    _get_updated_auth_header env st =
      (Except.error e, { st with tokenFetches := st.tokenFetches + 1 },
       [Event.tokenFetch st.tokenFetches false,
        Event.logCritical ("CRITICAL - Error getting access token: \n" ++ Err.render e)]) := by
  simp [_get_updated_auth_header, h]

theorem auth_header_ok (env : Env) (st : State) (tok : String)
    (h : env.tokenResult st.tokenFetches = Except.ok tok) :
    _get_updated_auth_header env st =
      (Except.ok [("authorization", "Bearer " ++ tok)],
       { st with tokenFetches := st.tokenFetches + 1 },
       [Event.tokenFetch st.tokenFetches true]) := by
  simp [_get_updated_auth_header, h]

theorem refresh_err (env : Env) (st : State) (e : Err)
    (h : env.tokenResult st.tokenFetches = Except.error e) :
    _refresh_session env st =
      (Except.error e, { st with tokenFetches := st.tokenFetches + 1 },
       [Event.tokenFetch st.tokenFetches false,
        Event.logCritical ("CRITICAL - Error getting access token: \n" ++ Err.render e)]) := by
  simp [_refresh_session, auth_header_err env st e h]

theorem refresh_ok (env : Env) (st : State) (tok : String)
    (h : env.tokenResult st.tokenFetches = Except.ok tok) :
    _refresh_session env st =
      (Except.ok (),
       { st with tokenFetches := st.tokenFetches + 1, client := st.nextId,
                 session := st.nextId + 1, nextId := st.nextId + 2 },
       [Event.tokenFetch st.tokenFetches true,
        Event.newTransport [("authorization", "Bearer " ++ tok)],
        Event.buildSchema st.document,
        Event.newClient st.nextId,
        Event.connect st.nextId (st.nextId + 1)]) := by
  simp [_refresh_session, auth_header_ok env st tok h]

/-- Characterization of `query` when the flag is already true: exactly one
execute attempt, no refresh, the execute outcome returned as is, the flag
reset by the `finally`. -/
theorem query_flag_true_eq (env : Env) (st : State) (q : Nat) (p : Params)
    (h : st.reauthenticated = true) :
    query env st q p =
      (env.execResult st.session q p,
       { st with reauthenticated := false },
       Event.executeAttempt st.session q p ::
         ((match env.execResult st.session q p with
           | Except.ok _ => ([] : List Event)
           | Except.error e => [errorLog e]) ++ [Event.flagSet false])) := by
  rw [query]
  cases hx : env.execResult st.session q p with
  | ok r => simp [hx]
  | error e =>
      cases e <;> simp [hx, h, errorLog, errorLogMsg]
      case transportServerError code m =>
        by_cases hc : code = some 302 <;> simp [hc]

/-- Characterization of `query` when the execute attempt succeeds. -/
theorem query_ok_eq (env : Env) (st : State) (q : Nat) (p : Params)
    (r : Response) (h : env.execResult st.session q p = Except.ok r) :
    query env st q p =
      (Except.ok r, { st with reauthenticated := false },
       [Event.executeAttempt st.session q p, Event.flagSet false]) := by
  rw [query]
  simp [h]

/-- Characterization of `query` when the execute attempt fails with an error
kind that is never retried: one attempt, a log, the original error
re-raised. -/
theorem query_nonretry_eq (env : Env) (st : State) (q : Nat) (p : Params)
    (e : Err) (h : env.execResult st.session q p = Except.error e)
    (he : isNonRetryError e = true) :
    query env st q p =
      (Except.error e, { st with reauthenticated := false },
       [Event.executeAttempt st.session q p, errorLog e, Event.flagSet false]) := by
  rw [query]
  cases e <;> simp_all [isNonRetryError, errorLog, errorLogMsg]

/-- Characterization of `query` when the first attempt fails with a retry
trigger, the flag is false, and the session rebuild itself fails at token
acquisition: the rebuild error is raised, no retry happens. -/
theorem query_trigger_tokenerr_eq (env : Env) (st : State) (q : Nat)
    (p : Params) (e te : Err) (hflag : st.reauthenticated = false)
    (h : env.execResult st.session q p = Except.error e)
    (htrig : isReauthTrigger e = true)
    (htok : env.tokenResult st.tokenFetches = Except.error te) :
    query env st q p =
      (Except.error te,
       { st with tokenFetches := st.tokenFetches + 1, reauthenticated := false },
       [Event.executeAttempt st.session q p,
        Event.tokenFetch st.tokenFetches false,
        Event.logCritical ("CRITICAL - Error getting access token: \n" ++ Err.render te),
        Event.flagSet false]) := by
  rw [query]
  cases e <;> simp_all [isReauthTrigger]
  case transportProtocolError m =>
    simp [refresh_err env st te htok]
  case transportServerError code m =>
    by_cases hc : code = some 302
    · simp_all [refresh_err env st te htok]
    · simp_all

/-- Characterization of `query` when the first attempt fails with a retry
trigger, the flag is false, and the rebuild's token fetch succeeds: the
session is rebuilt, the flag is set, and `query` recurses once with the same
arguments on the new session. -/
theorem query_trigger_eq (env : Env) (st : State) (q : Nat) (p : Params)
    (e : Err) (tok : String) (hflag : st.reauthenticated = false)
    (h : env.execResult st.session q p = Except.error e)
    (htrig : isReauthTrigger e = true)
    (htok : env.tokenResult st.tokenFetches = Except.ok tok) :
    query env st q p =
      ((query env
          { st with reauthenticated := true,
                    tokenFetches := st.tokenFetches + 1,
                    client := st.nextId, session := st.nextId + 1,
                    nextId := st.nextId + 2 } q p).1,
       { (query env
            { st with reauthenticated := true,
                      tokenFetches := st.tokenFetches + 1,
                      client := st.nextId, session := st.nextId + 1,
                      nextId := st.nextId + 2 } q p).2.1
           with reauthenticated := false },
       Event.executeAttempt st.session q p ::
         Event.tokenFetch st.tokenFetches true ::
         Event.newTransport [("authorization", "Bearer " ++ tok)] ::
         Event.buildSchema st.document ::
         Event.newClient st.nextId ::
         Event.connect st.nextId (st.nextId + 1) ::
         Event.flagSet true ::
         ((query env
             { st with reauthenticated := true,
                       tokenFetches := st.tokenFetches + 1,
                       client := st.nextId, session := st.nextId + 1,
                       nextId := st.nextId + 2 } q p).2.2 ++
           [Event.flagSet false])) := by
  rw [query]
  cases e <;> simp_all [isReauthTrigger]
  case transportProtocolError m =>
    simp [refresh_ok env st tok htok]
  case transportServerError code m =>
    by_cases hc : code = some 302
    · simp_all [refresh_ok env st tok htok]
    · simp_all

/-- C2: on every exit path of `GraphqlClient.query` — success, failure after
a retry, or direct failure — the `_reauthenticated` flag is false when
control returns to the caller. -/
theorem query_flag_false_after_call (env : Env) (st : State) (q : Nat)
    (p : Params) : (query env st q p).2.1.reauthenticated = false := by
  rw [query]

/-- C4: every failure of a kind that is not a reauthentication trigger —
`GraphQLError`, `TransportQueryError`, `TransportServerError` with a code
other than 302, `TransportClosed`, `TransportAlreadyConnected`, the two
timeouts, or an unclassified exception — triggers no session rebuild, is
logged, and the original exception is re-raised unchanged. -/
theorem query_nonretry_error_propagates (env : Env) (st : State) (q : Nat)
    (p : Params) (e : Err)
    (h : env.execResult st.session q p = Except.error e)
    (he : isNonRetryError e = true) :
    (query env st q p).1 = Except.error e ∧
    countEv isTokenFetchEv (query env st q p).2.2 = 0 ∧
    countEv isConnectEv (query env st q p).2.2 = 0 ∧
    countEv isLogErrorEv (query env st q p).2.2 = 1 := by
  cases hflag : st.reauthenticated with
  | true =>
      rw [query_flag_true_eq env st q p hflag]
      refine ⟨by simp [h], ?_⟩
      simp only [h]
      simp [countEv_cons, countEv_append, countEv_nil, errorLog,
        isTokenFetchEv, isConnectEv, isLogErrorEv]
  | false =>
      rw [query_nonretry_eq env st q p e h he]
      refine ⟨rfl, ?_⟩
      simp [countEv_cons, countEv_nil, errorLog,
        isTokenFetchEv, isConnectEv, isLogErrorEv]

/-- Witness for C4 at a concrete input: a server error with code 500 is
re-raised with no rebuild. -/
theorem query_nonretry_error_propagates_witness :
    (query envServer500 stStart 1 []).1 =
      Except.error (Err.transportServerError (some 500) "oops") ∧
    countEv isConnectEv (query envServer500 stStart 1 []).2.2 = 0 := by
  have h := query_nonretry_error_propagates envServer500 stStart 1 []
    (Err.transportServerError (some 500) "oops") rfl rfl
  exact ⟨h.1, h.2.2.1⟩

/-- Every call to `query`, whatever the environment and state, performs at
most one session rebuild, at most two execute attempts and no schema file
read. -/
theorem query_counts (env : Env) (st : State) (q : Nat) (p : Params) :
    countEv isConnectEv (query env st q p).2.2 ≤ 1 ∧
    countEv isExecAttempt (query env st q p).2.2 ≤ 2 ∧
    countEv isFileRead (query env st q p).2.2 = 0 := by
  cases hflag : st.reauthenticated with
  | true =>
      rw [query_flag_true_eq env st q p hflag]
      cases hx : env.execResult st.session q p <;>
        simp [countEv_cons, countEv_append, countEv_nil, errorLog,
          isConnectEv, isExecAttempt, isFileRead]
  | false =>
      cases hx : env.execResult st.session q p with
      | ok r =>
          rw [query_ok_eq env st q p r hx]
          simp [countEv_cons, countEv_nil, isConnectEv, isExecAttempt, isFileRead]
      | error e =>
          by_cases htrig : isReauthTrigger e = true
          · cases htok : env.tokenResult st.tokenFetches with
            | error te =>
                rw [query_trigger_tokenerr_eq env st q p e te hflag hx htrig htok]
                simp [countEv_cons, countEv_nil, isConnectEv, isExecAttempt, isFileRead]
            | ok tok =>
                rw [query_trigger_eq env st q p e tok hflag hx htrig htok]
                rw [query_flag_true_eq env
                  { st with reauthenticated := true,
                            tokenFetches := st.tokenFetches + 1,
                            client := st.nextId, session := st.nextId + 1,
                            nextId := st.nextId + 2 } q p rfl]
                cases hx2 : env.execResult (st.nextId + 1) q p <;>
                  simp [hx2, countEv_cons, countEv_append, countEv_nil, errorLog,
                    isConnectEv, isExecAttempt, isFileRead]
          · have hnr : isNonRetryError e = true := by
              cases e <;> simp_all [isReauthTrigger, isNonRetryError]
            rw [query_nonretry_eq env st q p e hx hnr]
            simp [countEv_cons, countEv_nil, errorLog, isConnectEv,
              isExecAttempt, isFileRead]

/-- C1: every top-level call to `query` performs at most one reauthentication
(session rebuild) and at most two execute attempts; when the retried attempt
fails again with a protocol error or a 302 server error, the call fails with
that second error and no third execution attempt is made. -/
theorem query_at_most_one_reauth (env : Env) (st : State) (q : Nat)
    (p : Params) (hflag : st.reauthenticated = false) :
    countEv isConnectEv (query env st q p).2.2 ≤ 1 ∧
    countEv isExecAttempt (query env st q p).2.2 ≤ 2 ∧
    (∀ e e2 tok,
      env.execResult st.session q p = Except.error e →
      isReauthTrigger e = true →
      env.tokenResult st.tokenFetches = Except.ok tok →
      env.execResult (st.nextId + 1) q p = Except.error e2 →
      isReauthTrigger e2 = true →
      (query env st q p).1 = Except.error e2 ∧
      countEv isExecAttempt (query env st q p).2.2 = 2) := by
  refine ⟨(query_counts env st q p).1, (query_counts env st q p).2.1, ?_⟩
  intro e e2 tok h1 htrig htok h2 _
  rw [query_trigger_eq env st q p e tok hflag h1 htrig htok]
  rw [query_flag_true_eq env
    { st with reauthenticated := true, tokenFetches := st.tokenFetches + 1,
              client := st.nextId, session := st.nextId + 1,
              nextId := st.nextId + 2 } q p rfl]
  constructor
  · simpa using h2
  · have h2e : env.execResult
        ({ st with reauthenticated := true,
                   tokenFetches := st.tokenFetches + 1,
                   client := st.nextId, session := st.nextId + 1,
                   nextId := st.nextId + 2 } : State).session q p =
        Except.error e2 := h2
    simp [h2e, countEv_cons, countEv_append, countEv_nil, errorLog, isExecAttempt]

/-- Witness for C1: both attempts raise `TransportProtocolError`; the call
fails with the second error after exactly two attempts. -/
theorem query_at_most_one_reauth_witness :
    (query envProto stStart 1 []).1 =
      Except.error (Err.transportProtocolError "bad") ∧
    countEv isExecAttempt (query envProto stStart 1 []).2.2 = 2 := by
  exact (query_at_most_one_reauth envProto stStart 1 [] rfl).2.2
    (Err.transportProtocolError "bad") (Err.transportProtocolError "bad")
    "tokA" rfl rfl rfl rfl rfl

/-- C3: when the first attempt of a call (flag down) fails with a protocol
error or a 302 server error and the rebuild's token fetch succeeds, exactly
one session rebuild occurs and the execution is retried exactly once with the
identical query and parameters; a server error with any code other than 302
never triggers a rebuild. -/
theorem query_trigger_exactly_one_rebuild (env : Env) (st : State) (q : Nat)
    (p : Params) (e : Err) (hflag : st.reauthenticated = false)
    (h1 : env.execResult st.session q p = Except.error e) :
    (∀ tok, isReauthTrigger e = true →
      env.tokenResult st.tokenFetches = Except.ok tok →
      countEv isConnectEv (query env st q p).2.2 = 1 ∧
      execAttemptArgs (query env st q p).2.2 =
        [(st.session, q, p), (st.nextId + 1, q, p)]) ∧
    (∀ code m, e = Err.transportServerError code m → code ≠ some 302 →
      countEv isConnectEv (query env st q p).2.2 = 0 ∧
      countEv isTokenFetchEv (query env st q p).2.2 = 0) := by
  constructor
  · intro tok htrig htok
    rw [query_trigger_eq env st q p e tok hflag h1 htrig htok]
    rw [query_flag_true_eq env
      { st with reauthenticated := true, tokenFetches := st.tokenFetches + 1,
                client := st.nextId, session := st.nextId + 1,
                nextId := st.nextId + 2 } q p rfl]
    cases hx2 : env.execResult (st.nextId + 1) q p <;>
      simp [hx2, countEv_cons, countEv_append, countEv_nil, errorLog,
        isConnectEv, execAttemptArgs, List.filterMap_cons]
  · intro code m he hcode
    subst he
    have hnr : isNonRetryError (Err.transportServerError code m) = true := by
      simp [isNonRetryError, hcode]
    rw [query_nonretry_eq env st q p _ h1 hnr]
    simp [countEv_cons, countEv_nil, errorLog, isConnectEv, isTokenFetchEv]

/-- Witness for C3: a protocol error on the first attempt leads to one
rebuild and a verbatim retry on the new session object. -/
theorem query_trigger_exactly_one_rebuild_witness :
    countEv isConnectEv (query envProto stStart 2 [("x", 9)]).2.2 = 1 ∧
    execAttemptArgs (query envProto stStart 2 [("x", 9)]).2.2 =
      [(0, 2, [("x", 9)]), (5, 2, [("x", 9)])] := by
  exact (query_trigger_exactly_one_rebuild envProto stStart 2 [("x", 9)]
    (Err.transportProtocolError "bad") rfl rfl).1 "tokA" rfl rfl

/-- C5 counterexample: on a first-attempt `TransportProtocolError` with the
flag down, the code does NOT set the flag before rebuilding: in the recorded
trace no flag-raise precedes the rebuild's token fetch (first conjunct
refutes the claimed order); instead the token fetch precedes the flag raise
(second conjunct shows both events do occur). -/
theorem query_flag_order_counterexample :
    occursBefore isFlagSetTrue isTokenFetchEv
      (query envRecover stStart 1 []).2.2 = false ∧
    occursBefore isTokenFetchEv isFlagSetTrue
      (query envRecover stStart 1 []).2.2 = true := by
  rw [query_trigger_eq envRecover stStart 1 []
    (Err.transportProtocolError "expired") "tokB" rfl rfl rfl rfl]
  exact ⟨rfl, rfl⟩

/-- C5 amended: on a first-attempt `TransportProtocolError` with the flag
down, the recovery steps happen in the order the code prescribes — first the
session factory rebuilds the session (token fetch, transport, schema build,
client, connect), then the flag is set to true, then `query` recurses into a
single retry. -/
theorem query_rebuild_then_flag_then_retry (env : Env) (st : State) (q : Nat)
    (p : Params) (m tok : String) (hflag : st.reauthenticated = false)
    (h : env.execResult st.session q p =
      Except.error (Err.transportProtocolError m))
    (htok : env.tokenResult st.tokenFetches = Except.ok tok) :
    (query env st q p).2.2 =
      Event.executeAttempt st.session q p ::
      Event.tokenFetch st.tokenFetches true ::
      Event.newTransport [("authorization", "Bearer " ++ tok)] ::
      Event.buildSchema st.document ::
      Event.newClient st.nextId ::
      Event.connect st.nextId (st.nextId + 1) ::
      Event.flagSet true ::
      ((query env
          { st with reauthenticated := true,
                    tokenFetches := st.tokenFetches + 1,
                    client := st.nextId, session := st.nextId + 1,
                    nextId := st.nextId + 2 } q p).2.2 ++
        [Event.flagSet false]) ∧
    occursBefore isTokenFetchEv isFlagSetTrue (query env st q p).2.2 = true := by
  rw [query_trigger_eq env st q p (Err.transportProtocolError m) tok hflag h rfl htok]
  exact ⟨rfl, rfl⟩

/-- Witness for the amended C5: the rebuild's token fetch precedes the flag
raise in a concrete recovering run. -/
theorem query_rebuild_then_flag_then_retry_witness :
    occursBefore isTokenFetchEv isFlagSetTrue
      (query envRecover stStart 4 []).2.2 = true := by
  exact (query_rebuild_then_flag_then_retry envRecover stStart 4 []
    "expired" "tokB" rfl rfl rfl).2

/-- C6: a successful `query` call returns the response mapping of the
underlying execute unchanged; and when the first attempt fails with a
protocol error and the retry after the rebuild succeeds, the caller receives
exactly the second attempt's response, with exactly one rebuild. -/
theorem query_success_response (env : Env) (st : State) (q : Nat) (p : Params)
    (hflag : st.reauthenticated = false) :
    (∀ r, env.execResult st.session q p = Except.ok r →
      (query env st q p).1 = Except.ok r) ∧
    (∀ m tok r2,
      env.execResult st.session q p =
        Except.error (Err.transportProtocolError m) →
      env.tokenResult st.tokenFetches = Except.ok tok →
      env.execResult (st.nextId + 1) q p = Except.ok r2 →
      (query env st q p).1 = Except.ok r2 ∧
      countEv isConnectEv (query env st q p).2.2 = 1) := by
  constructor
  · intro r h
    rw [query_ok_eq env st q p r h]
  · intro m tok r2 h htok h2
    rw [query_trigger_eq env st q p (Err.transportProtocolError m) tok hflag h rfl htok]
    rw [query_flag_true_eq env
      { st with reauthenticated := true, tokenFetches := st.tokenFetches + 1,
                client := st.nextId, session := st.nextId + 1,
                nextId := st.nextId + 2 } q p rfl]
    constructor
    · simpa using h2
    · have h2e : env.execResult
          ({ st with reauthenticated := true,
                     tokenFetches := st.tokenFetches + 1,
                     client := st.nextId, session := st.nextId + 1,
                     nextId := st.nextId + 2 } : State).session q p =
          Except.ok r2 := h2
      simp [h2e, countEv_cons, countEv_append, countEv_nil, isConnectEv]

/-- Witness for C6: a first-attempt protocol error followed by a successful
retry yields the second attempt's response. -/
theorem query_success_response_witness :
    (query envRecover stStart 3 []).1 = Except.ok [("data", 1)] := by
  exact ((query_success_response envRecover stStart 3 [] rfl).2
    "expired" "tokB" [("data", 1)] rfl rfl rfl).1

/-- C9: when the retry path is entered (first-attempt protocol or 302 server
error, flag down) and the session rebuild itself fails at token acquisition,
the rebuild error — not the original one — propagates, the query is not
retried, and the flag is false after the call. -/
theorem query_rebuild_failure_propagates (env : Env) (st : State) (q : Nat)
    (p : Params) (e te : Err) (hflag : st.reauthenticated = false)
    (h1 : env.execResult st.session q p = Except.error e)
    (htrig : isReauthTrigger e = true)
    (htok : env.tokenResult st.tokenFetches = Except.error te) :
    (query env st q p).1 = Except.error te ∧
    countEv isExecAttempt (query env st q p).2.2 = 1 ∧
    (query env st q p).2.1.reauthenticated = false := by
  rw [query_trigger_tokenerr_eq env st q p e te hflag h1 htrig htok]
  refine ⟨rfl, ?_, rfl⟩
  simp [countEv_cons, countEv_nil, isExecAttempt]

/-- Witness for C9: the token error surfaces instead of the protocol error
and only one attempt is made. -/
theorem query_rebuild_failure_propagates_witness :
    (query envTokenFail stStart 1 []).1 =
      Except.error (Err.otherException "denied") ∧
    countEv isExecAttempt (query envTokenFail stStart 1 []).2.2 = 1 := by
  have h := query_rebuild_failure_propagates envTokenFail stStart 1 []
    (Err.transportProtocolError "bad") (Err.otherException "denied")
    rfl rfl rfl rfl
  exact ⟨h.1, h.2.1⟩

/-- C7: the schema file is read only during initialization — a session
rebuild performs no file read, fetches exactly one fresh bearer token (the
next, uncached one from the credential source) and reconstructs transport,
schema object, client and session from the stored parsed document;
initialization reads the file at most once, and `query` (hence every rebuild
it performs) never reads it. -/
theorem schema_loaded_once_token_fresh (env : Env) (st : State) (q : Nat)
    (p : Params) :
    countEv isFileRead (_refresh_session env st).2.2 = 0 ∧
    countEv isTokenFetchEv (_refresh_session env st).2.2 = 1 ∧
    (∀ tok, env.tokenResult st.tokenFetches = Except.ok tok →
      (_refresh_session env st).2.2 =
        [Event.tokenFetch st.tokenFetches true,
         Event.newTransport [("authorization", "Bearer " ++ tok)],
         Event.buildSchema st.document,
         Event.newClient st.nextId,
         Event.connect st.nextId (st.nextId + 1)]) ∧
    countEv isFileRead (_initialize_session env st).2.2 ≤ 1 ∧
    countEv isFileRead (query env st q p).2.2 = 0 := by
  refine ⟨?_, ?_, ?_, ?_, (query_counts env st q p).2.2⟩
  · cases htok : env.tokenResult st.tokenFetches with
    | error te =>
        rw [refresh_err env st te htok]
        simp [countEv_cons, countEv_nil, isFileRead]
    | ok tok =>
        rw [refresh_ok env st tok htok]
        simp [countEv_cons, countEv_nil, isFileRead]
  · cases htok : env.tokenResult st.tokenFetches with
    | error te =>
        rw [refresh_err env st te htok]
        simp [countEv_cons, countEv_nil, isTokenFetchEv]
    | ok tok =>
        rw [refresh_ok env st tok htok]
        simp [countEv_cons, countEv_nil, isTokenFetchEv]
  · intro tok htok
    rw [refresh_ok env st tok htok]
  · cases htok : env.tokenResult st.tokenFetches with
    | error te =>
        simp [_initialize_session, auth_header_err env st te htok,
          countEv_cons, countEv_nil, isFileRead]
    | ok tok =>
        cases hs : env.schemaParse with
        | error pe =>
            simp [_initialize_session, auth_header_ok env st tok htok, hs,
              countEv_append, countEv_cons, countEv_nil, isFileRead]
        | ok doc =>
            simp [_initialize_session, auth_header_ok env st tok htok, hs,
              countEv_append, countEv_cons, countEv_nil, isFileRead]

/-- Witness for C7: a concrete rebuild fetches the next token and rebuilds
from the stored document, with no file read. -/
theorem schema_loaded_once_token_fresh_witness :
    (_refresh_session envOk stStart).2.2 =
      [Event.tokenFetch 1 true,
       Event.newTransport [("authorization", "Bearer " ++ "tokC")],
       Event.buildSchema 7,
       Event.newClient 4,
       Event.connect 4 5] := by
  exact (schema_loaded_once_token_fresh envOk stStart 1 []).2.2.1 "tokC" rfl

/-- C8: on every session build or rebuild, a token-acquisition failure is
logged at critical severity and the original exception propagates to the
caller, with no retry of the token acquisition itself (exactly one fetch). -/
theorem token_failure_critical_propagates (env : Env) (st : State) (e : Err)
    (h : env.tokenResult st.tokenFetches = Except.error e) :
    (_get_updated_auth_header env st).1 = Except.error e ∧
    countEv isLogCriticalEv (_get_updated_auth_header env st).2.2 = 1 ∧
    (_refresh_session env st).1 = Except.error e ∧
    countEv isTokenFetchEv (_refresh_session env st).2.2 = 1 ∧
    (_initialize_session env st).1 = Except.error e ∧
    countEv isTokenFetchEv (_initialize_session env st).2.2 = 1 := by
  rw [auth_header_err env st e h, refresh_err env st e h]
  refine ⟨rfl, by simp [countEv_cons, countEv_nil, isLogCriticalEv], rfl,
    by simp [countEv_cons, countEv_nil, isTokenFetchEv], ?_, ?_⟩
  · simp [_initialize_session, auth_header_err env st e h]
  · simp [_initialize_session, auth_header_err env st e h,
      countEv_cons, countEv_nil, isTokenFetchEv]

/-- Witness for C8: a concrete failing token fetch propagates from both the
header helper and the rebuild, logged critical once. -/
theorem token_failure_critical_propagates_witness :
    (_refresh_session envTokenFail stStart).1 =
      Except.error (Err.otherException "denied") ∧
    countEv isLogCriticalEv
      (_get_updated_auth_header envTokenFail stStart).2.2 = 1 := by
  have h := token_failure_critical_propagates envTokenFail stStart
    (Err.otherException "denied") rfl
  exact ⟨h.2.2.1, h.2.1⟩

/-- C10: a session rebuild leaves `self.document`, `self.schema` and
`self._reauthenticated` untouched; on success it replaces exactly the
`self.client` and `self.session` bindings with freshly built objects. -/
theorem refresh_session_frame (env : Env) (st : State) :
    (_refresh_session env st).2.1.document = st.document ∧
    (_refresh_session env st).2.1.schema = st.schema ∧
    (_refresh_session env st).2.1.reauthenticated = st.reauthenticated ∧
    (∀ tok, env.tokenResult st.tokenFetches = Except.ok tok →
      (_refresh_session env st).2.1.client = st.nextId ∧
      (_refresh_session env st).2.1.session = st.nextId + 1) := by
  cases htok : env.tokenResult st.tokenFetches with
  | error te =>
      rw [refresh_err env st te htok]
      refine ⟨rfl, rfl, rfl, ?_⟩
      intro tok h
      simp at h
  | ok tok =>
      rw [refresh_ok env st tok htok]
      exact ⟨rfl, rfl, rfl, fun _ _ => ⟨rfl, rfl⟩⟩

/-- Witness for C10: a concrete rebuild keeps the document and schema and
swaps in the fresh client and session objects. -/
theorem refresh_session_frame_witness :
    (_refresh_session envOk stStart).2.1.document = stStart.document ∧
    (_refresh_session envOk stStart).2.1.client = stStart.nextId := by
  have h := refresh_session_frame envOk stStart
  exact ⟨h.1, (h.2.2.2 "tokC" rfl).1⟩

end GraphqlClient
